import Mathlib

/-!
Verification of `FormControlTyped` (src/projects/forms/src/lib/form-control-typed.ts).

The repository contains one class, `FormControlTyped<T>`, extending the external
framework class `FormControl`.  Every method body is a direct call to the base
implementation (`super.setValue`, `super.patchValue`, `super.reset`, `super.get`,
and the constructor calls `super(...)`); the wrapper only narrows types and
supplies the same default arguments (`null` for form states, `{}` for options).

The base control implementation is not part of this repository, so its state
and operations are modelled from the spec (sections 3, 4.1) and from the doc
comments in the source file, which describe the delegated behaviour
(value replacement, `emitEvent` suppression of `valueChanges`/`statusChanges`
emissions, `reset` marking pristine/untouched and setting the value to null,
and child lookup on a leaf control).

Null-equivalent values are modelled with `Option`: `none` is the framework's
`null`.  The base, untyped control holds `Option T`; the typed wrapper narrows
`setValue`/`patchValue` arguments to `T`.
-/

/-- Validity status of a control (spec section 4: pristine/dirty, touched/
untouched, valid/invalid, enabled/disabled are inherited framework state). -/
inductive Status where
  | VALID
  | INVALID
  | DISABLED
deriving DecidableEq, Repr

/-- Options accepted by `setValue` / `patchValue`
(source lines 56-62 and 77-83): all four flags are optional;
`none` models an omitted flag. -/
structure SetValueOptions where
  onlySelf : Option Bool
  emitEvent : Option Bool
  emitModelToViewChange : Option Bool
  emitViewToModelChange : Option Bool
deriving DecidableEq, Repr

/-- Options accepted by `reset` (source lines 107-110). -/
structure ResetOptions where
  onlySelf : Option Bool
  emitEvent : Option Bool
deriving DecidableEq, Repr

/-- The TS literal `{}` used as the default `options` argument of
`setValue` and `patchValue`: every flag omitted. -/
def emptySetValueOptions : SetValueOptions :=
  ⟨none, none, none, none⟩

/-- The TS literal `{}` used as the default `options` argument of `reset`. -/
def emptyResetOptions : ResetOptions :=
  ⟨none, none⟩

/-- The `formState` argument of the constructor and of `reset`
(source lines 24 and 106): either a bare value (possibly `null`)
or a `{value, disabled}` pair. -/
inductive FormStateArg (T : Type) where
  | value (v : Option T) : FormStateArg T
  | boxed (v : Option T) (disabled : Bool) : FormStateArg T

/-- Modelled from the spec: the external framework's control
(spec section 3 "Control": a mutable holder of a value, plus ancillary
status — disabled, pristine/dirty, valid/invalid — and change-notification
streams).  The notification streams `valueChanges` and `statusChanges` are
modelled as the lists of notifications emitted so far.  The synchronous
validator hook is modelled as a boolean predicate on the held value. -/
structure FormControl (T : Type) where
  value : Option T
  disabled : Bool
  pristine : Bool
  touched : Bool
  validator : Option T → Bool
  valueChangeEmissions : List (Option T)
  statusChangeEmissions : List Status

/-- Modelled from the spec: a control's status is `DISABLED` when disabled,
otherwise `VALID` or `INVALID` according to its validator. -/
def FormControl.status (c : FormControl T) : Status :=
  if c.disabled then Status.DISABLED
  else if c.validator c.value then Status.VALID
  else Status.INVALID

/-- Modelled from the spec: recomputing value/validity after a change.
When `emitEvent` is not `false` (true or omitted — source lines 43-46:
"When true or not supplied (the default), both the statusChanges and
valueChanges observables emit events with the latest status and value...
When false, no events are emitted"), the latest value and status are
emitted on the two notification streams. -/
def FormControl.updateValueAndValidity (c : FormControl T) (emitEvent : Option Bool) :
    FormControl T :=
  if emitEvent = some false then c
  else
    { c with
      valueChangeEmissions := c.valueChangeEmissions ++ [c.value]
      statusChangeEmissions := c.statusChangeEmissions ++ [c.status] }

/-- Modelled from the spec: the base control's `setValue` replaces the held
value and propagates change/validity notifications per the supplied options
(spec section 4.1).  The base, untyped control accepts any value including
the null-equivalent, hence `Option T`. -/
def FormControl.setValue (c : FormControl T) (v : Option T) (options : SetValueOptions) :
    FormControl T :=
  FormControl.updateValueAndValidity { c with value := v } options.emitEvent

/-- Modelled from the spec: on the base single-value control, `patchValue`
is functionally identical to `setValue` (spec section 4.1 and the doc
comment at source lines 69-71: "This function is functionally the same as
setValue at this level"). -/
def FormControl.patchValue (c : FormControl T) (v : Option T) (options : SetValueOptions) :
    FormControl T :=
  FormControl.setValue c v options

/-- Modelled from the spec: applying a `formState` argument — either a bare
value, or a `{value, disabled}` pair setting both the value and the disabled
state (spec section 4.1 "Construct"). -/
def FormControl.applyFormState (c : FormControl T) : FormStateArg T → FormControl T
  | FormStateArg.value v => { c with value := v }
  | FormStateArg.boxed v d => { c with value := v, disabled := d }

/-- Modelled from the spec: the base control's `reset` restores the control
to the supplied (or null-equivalent) state, marks it pristine and untouched
(doc comment at source lines 94-95: "Resets the form control, marking it
pristine and untouched, and setting the value to null"), and propagates
notifications per `onlySelf`/`emitEvent` (spec section 4.1). -/
def FormControl.reset (c : FormControl T) (formState : FormStateArg T)
    (options : ResetOptions) : FormControl T :=
  let c1 := FormControl.applyFormState c formState
  let c2 : FormControl T := { c1 with pristine := true, touched := false }
  FormControl.setValue c2 c2.value ⟨options.onlySelf, options.emitEvent, none, none⟩

/-- Modelled from the spec: construction of the base control holding either a
bare value of type T or a `{value, disabled}` pair; a fresh control starts
pristine and untouched with empty notification streams (spec section 4.1
"Construct"; no events have fired yet). -/
def FormControl.ofFormState (formState : FormStateArg T) (validator : Option T → Bool) :
    FormControl T :=
  FormControl.applyFormState
    ⟨none, false, true, false, validator, [], []⟩ formState

/-- Modelled from the spec: the base control's child lookup.  A plain
`FormControl` is a leaf: it composes no children, so the external lookup
finds no child control for any path and yields the framework's
null-equivalent (spec section 4.1: "delegates to the external lookup and
yields an external-control-shaped null-equivalent when no such child
exists"; spec section 9: "likely yielding an absent/null-equivalent
child").  The result type `V` is chosen by the caller (the source casts the
untyped result: `super.get(path) as ...`, source line 126). -/
def FormControl.get (V : Type) (_c : FormControl T) (_path : String) :
    Option (FormControl V) :=
  none

/-- `FormControlTyped<T> extends FormControl` adds no fields of its own
(source line 6): its runtime state is exactly the base control's state. -/
abbrev FormControlTyped (T : Type) :=
  FormControl T

/-- Constructor of `FormControlTyped` (source lines 23-29): passes its
arguments straight to `super(...)`.  The validator argument stands for
`validatorOrOpts`; async validators are opaque to this layer. -/
def FormControlTyped.construct (formState : FormStateArg T)
    (validator : Option T → Bool) : FormControlTyped T :=
  FormControl.ofFormState formState validator

/-- Constructor call with the `formState` argument omitted: the source
defaults it to `null` (source line 24: `formState ... = null`). -/
def FormControlTyped.constructDefault (validator : Option T → Bool) :
    FormControlTyped T :=
  FormControlTyped.construct (FormStateArg.value none) validator

/-- `FormControlTyped.setValue` (source lines 54-64): narrows the value
argument to `T` and returns `super.setValue(value, options)`. -/
def FormControlTyped.setValue (c : FormControlTyped T) (v : T)
    (options : SetValueOptions) : FormControlTyped T :=
  FormControl.setValue c (some v) options

/-- `FormControlTyped.patchValue` (source lines 75-85): narrows the value
argument to `T` and returns `super.patchValue(value, options)`. -/
def FormControlTyped.patchValue (c : FormControlTyped T) (v : T)
    (options : SetValueOptions) : FormControlTyped T :=
  FormControl.patchValue c (some v) options

/-- `FormControlTyped.reset` (source lines 105-113): returns
`super.reset(formState, options)`. -/
def FormControlTyped.reset (c : FormControlTyped T) (formState : FormStateArg T)
    (options : ResetOptions) : FormControlTyped T :=
  FormControl.reset c formState options

/-- `FormControlTyped.reset` called with no arguments: the source defaults
`formState` to `null` and `options` to `{}` (source lines 106-110). -/
def FormControlTyped.resetDefault (c : FormControlTyped T) : FormControlTyped T :=
  FormControlTyped.reset c (FormStateArg.value none) emptyResetOptions

/-- `FormControlTyped.get` (source lines 125-127): returns
`super.get(path)` cast to the typed child-control type chosen from the
key's field type (`as ControlType<T[K]>`). -/
def FormControlTyped.get (V : Type) (c : FormControlTyped T) (path : String) :
    Option (FormControlTyped V) :=
  FormControl.get V c path

/-- A structured (object-shaped) value type with one field, used for the
concrete scenarios over shape `{name: string}`. -/
structure Person where
  name : String
deriving DecidableEq, Repr

/-- A validator accepting every value (the scenarios attach no validation). -/
def anyPersonValid : Option Person → Bool :=
  fun _ => true

/-- The control of the spec's concrete scenario: constructed over shape
`{name: string}` with initial value `{name: "a"}`. -/
def personControl : FormControlTyped Person :=
  FormControlTyped.construct (FormStateArg.value (some ⟨"a"⟩)) anyPersonValid

/-- The options object `{emitEvent: false}`. -/
def suppressEventsOptions : SetValueOptions :=
  ⟨none, some false, none, none⟩

/-- C1: for every type T and value v : T, `setValue(v)` followed by reading
the current value yields exactly v, and the wrapper's state after the call
is the state of the underlying base control's `setValue`. -/
theorem setValue_roundtrip (T : Type) (c : FormControlTyped T) (v : T)
    (options : SetValueOptions) :
    (FormControlTyped.setValue c v options).value = some v ∧
    FormControlTyped.setValue c v options = FormControl.setValue c (some v) options := by
  refine ⟨?_, rfl⟩
  unfold FormControlTyped.setValue FormControl.setValue FormControl.updateValueAndValidity
  split <;> rfl

/-- C2: every operation of `FormControlTyped` — construction, `setValue`,
`patchValue`, `reset`, `get` — produces, for every input, exactly the state
and result of the same operation of the underlying base control: the
wrapper is a pure pass-through. -/
theorem typed_is_pass_through (T V : Type) (formState : FormStateArg T)
    (validator : Option T → Bool) (c : FormControlTyped T) (v : T)
    (options : SetValueOptions) (rOptions : ResetOptions) (path : String) :
    FormControlTyped.construct formState validator
      = FormControl.ofFormState formState validator ∧
    FormControlTyped.setValue c v options = FormControl.setValue c (some v) options ∧
    FormControlTyped.patchValue c v options = FormControl.patchValue c (some v) options ∧
    FormControlTyped.reset c formState rOptions = FormControl.reset c formState rOptions ∧
    FormControlTyped.get V c path = FormControl.get V c path :=
  ⟨rfl, rfl, rfl, rfl, rfl⟩

/-- C3: for every value v and options, `patchValue(v, opts)` and
`setValue(v, opts)` produce the same resulting value and the same
resulting status. -/
theorem patchValue_eq_setValue (T : Type) (c : FormControlTyped T) (v : T)
    (options : SetValueOptions) :
    (FormControlTyped.patchValue c v options).value
      = (FormControlTyped.setValue c v options).value ∧
    (FormControlTyped.patchValue c v options).status
      = (FormControlTyped.setValue c v options).status :=
  ⟨rfl, rfl⟩

/-- C4: for every control in any state (hence after any sequence of
mutations), `reset()` with no arguments sets the value to the
null-equivalent and makes the control pristine and untouched. -/
theorem reset_default_clears (T : Type) (c : FormControlTyped T) :
    (FormControlTyped.resetDefault c).value = none ∧
    (FormControlTyped.resetDefault c).pristine = true ∧
    (FormControlTyped.resetDefault c).touched = false := by
  refine ⟨?_, ?_, ?_⟩ <;>
    · unfold FormControlTyped.resetDefault FormControlTyped.reset FormControl.reset
        FormControl.setValue FormControl.updateValueAndValidity
      split <;> rfl

/-- C5 counterexample: on the concrete structured control over
`{name: string}` holding `{name: "a"}`, `get("name")` does not return a
control holding the parent's `name` field — it returns no control at all. -/
theorem get_name_returns_no_child :
    ¬ ∃ child : FormControlTyped String,
        FormControlTyped.get String personControl "name" = some child ∧
        child.value = some "a" :=
  fun ⟨_, h, _⟩ => Option.noConfusion h

/-- C5 amended: for the structured shape `{name: string}` and its valid
field name "name", `get` on any control of that shape returns the external
lookup's null-equivalent rather than a child control, because a
`FormControlTyped` is a leaf with no children. -/
theorem get_on_structured_returns_null (c : FormControlTyped Person) :
    FormControlTyped.get String c "name" = none :=
  rfl

/-- C6: when `get(path)` finds no child control (which is always, on a leaf
control), the call raises no error: it delegates to the external lookup and
returns the external lookup's null-equivalent result. -/
theorem get_missing_child_delegates (T V : Type) (c : FormControlTyped T)
    (path : String) :
    FormControlTyped.get V c path = FormControl.get V c path ∧
    FormControl.get V c path = none :=
  ⟨rfl, rfl⟩

/-- C7: `setValue(v, {emitEvent: false})` emits no value-change and no
status-change notification, while `setValue(v)` with default options emits
both (the new value, and the status recomputed at the new value). -/
theorem setValue_emitEvent_false_suppresses (T : Type) (c : FormControlTyped T)
    (v : T) :
    (FormControlTyped.setValue c v suppressEventsOptions).valueChangeEmissions
      = c.valueChangeEmissions ∧
    (FormControlTyped.setValue c v suppressEventsOptions).statusChangeEmissions
      = c.statusChangeEmissions ∧
    (FormControlTyped.setValue c v emptySetValueOptions).valueChangeEmissions
      = c.valueChangeEmissions ++ [some v] ∧
    (FormControlTyped.setValue c v emptySetValueOptions).statusChangeEmissions
      = c.statusChangeEmissions ++ [FormControl.status { c with value := some v }] :=
  ⟨rfl, rfl, rfl, rfl⟩

/-- C8: a `FormControlTyped` constructed with the initial-state argument
omitted holds the null-equivalent value. -/
theorem construct_default_null (T : Type) (validator : Option T → Bool) :
    (FormControlTyped.constructDefault validator).value = none :=
  rfl

/-- C9: constructing over shape `{name: string}` with initial value
`{name: "a"}`, then `setValue({name: "b"})`, makes the current value
`{name: "b"}`; a subsequent `reset()` makes the current value the
null-equivalent with pristine = true. -/
theorem scenario_person_set_reset :
    (FormControlTyped.setValue personControl ⟨"b"⟩ emptySetValueOptions).value
      = some ⟨"b"⟩ ∧
    (FormControlTyped.resetDefault
        (FormControlTyped.setValue personControl ⟨"b"⟩ emptySetValueOptions)).value
      = none ∧
    (FormControlTyped.resetDefault
        (FormControlTyped.setValue personControl ⟨"b"⟩ emptySetValueOptions)).pristine
      = true :=
  ⟨rfl, rfl, rfl⟩

/-- C10: every `get(path)` call on a `FormControlTyped` yields the
null-equivalent at runtime, for every value type, requested child type,
control state and path: the control is a leaf with no children, and the
external lookup's null result is cast unchecked to the typed wrapper. -/
theorem get_always_returns_null (T V : Type) (c : FormControlTyped T)
    (path : String) :
    FormControlTyped.get V c path = none :=
  rfl
